import Mathlib

/-!
Verification development for `textToy/ptm/nezha.py` (NeZha model: embedding
stage, relative-position transformer encoder, orchestrating model).

The file under verification builds a TensorFlow-1 computation graph.  We give
a shallow embedding of its control flow: tensors and the external building
blocks it imports (`word_embeddings_layer`, `token_type_embedding_layer`,
`layer_norm_and_dropout`, `dense_layer_2d`, `reshape_to_matrix`,
`reshape_from_matrix`, `create_attention_mask_from_input_mask`,
`bert_transformer_layer`, `pooler_layer`, `get_activation`) are abstract
parameters collected in a `Prims` structure, while every branch, loop and
error raise of `nezha.py` itself is translated directly.  `T` is the type of
tensors, `F` the type of activation functions.
-/

/-- Configuration record (`config` in the source).  Only the fields read by
`nezha.py` are modelled. -/
structure NezhaConfig where
  vocab_size : Nat
  hidden_size : Nat
  num_attention_heads : Nat
  num_hidden_layers : Nat
  intermediate_size : Nat
  hidden_act : String
  hidden_dropout_prob : Rat
  attention_probs_dropout_prob : Rat
  initializer_range : Rat
  type_vocab_size : Nat
  use_one_hot_embeddings : Bool
  output_attentions : Bool
  output_hidden_states : Bool
deriving DecidableEq

/-- The `ValueError`s the source can raise, one constructor per raise site:
rank mismatch inside `get_shape_list`, the missing `token_type_ids` branch of
`NeZhaEmbedding` (nezha.py line 47), and the hidden-size divisibility check of
`NeZhaEncoder` (nezha.py line 80). -/
inductive NezhaError where
  | rankMismatch (expected : Nat) (actual : Nat)
  | missingTokenTypeIds
  | hiddenSizeNotMultiple (hidden_size : Nat) (num_attention_heads : Nat)
deriving DecidableEq

/-- The message text each raise site formats (for fidelity with the source
strings; the constructors above carry the data). -/
def NezhaError.message : NezhaError → String
  | .rankMismatch expected actual =>
      "rank of tensor (" ++ toString actual ++
        ") does not match expected rank (" ++ toString expected ++ ")"
  | .missingTokenTypeIds =>
      "`token_type_ids` must be specified if`use_token_type` is True."
  | .hiddenSizeNotMultiple h a =>
      "The hidden size (" ++ toString h ++
        ") is not a multiple of the number of attention heads (" ++
        toString a ++ ")"

/-- One component of the variadic output tuples the source builds
(`outputs = (final_output,) + ...`, `self.outputs = (pooled_output,) + ...`). -/
inductive OutItem (T : Type) where
  | pooled (t : T)
  | hidden (t : T)
  | hiddenList (l : List T)
  | attnList (l : List T)
deriving DecidableEq

/-- The keyword arguments `NeZhaEncoder` forwards to
`bert_transformer_layer` besides the per-call tensor data. -/
structure LayerArgs (F : Type) where
  hidden_size : Nat
  num_attention_heads : Nat
  intermediate_size : Nat
  intermediate_act_fn : F
  hidden_dropout_prob : Rat
  attention_probs_dropout_prob : Rat
  initializer_range : Rat
  use_relative_position : Bool
  do_return_attentions_probs : Bool

/-- The external building blocks `nezha.py` imports from sibling modules
(`.embedding`, `.transformer`, `.utils`), abstracted: `T` is the tensor type,
`F` the activation-function type.  `shape` reports a tensor's static shape
(used by the spec-modelled `get_shape_list`).  `bertTransformerLayer` takes
the enclosing `layer_%d` variable scope as its leading `Nat` index and returns
the pair (layer output, attention probabilities); the second component is
meaningful exactly when `do_return_attentions_probs` is set, matching the
`layer_output[0]` / `layer_output[1]` accesses in the source. -/
structure Prims (T F : Type) where
  shape : T → List Nat
  wordEmbeddingsLayer : T → Nat → Nat → Rat → String → Bool → T × T
  tokenTypeEmbeddingLayer : List Nat → T → Nat → String → Rat → T
  addTensor : T → T → T
  layerNormAndDropout : T → Rat → T
  denseLayer2d : T → Nat → Rat → Option F → Bool → String → T
  reshapeToMatrix : T → T
  reshapeFromMatrix : T → List Nat → T
  createAttentionMaskFromInputMask : T → T → T
  bertTransformerLayer : Nat → T → Nat → Nat → Option T → LayerArgs F → T × T
  poolerLayer : T → Nat → Rat → T
  getActivation : String → F
  ones : List Nat → T
  zeros : List Nat → T

/-- Modelled from the spec: "Shape introspection primitive:
`get_shape_list(tensor, expected_rank?) -> list_of_dims`; fails if actual
rank mismatches expected" (§6).  The function itself lives in
`textToy/ptm/utils.py`, which is not part of the sources. -/
def get_shape_list {T F : Type} (P : Prims T F) (tensor : T)
    (expected_rank : Nat) : Except NezhaError (List Nat) :=
  if (P.shape tensor).length = expected_rank then
    .ok (P.shape tensor)
  else
    .error (.rankMismatch expected_rank (P.shape tensor).length)

/-- Modelled from the spec: relative-position bucketing, §4.1: "compute raw
distance `d = j - i`; clip to `[-max_distance, max_distance]`; shift to
non-negative bucket `b = d + max_distance`".  The code implementing it lives
in `textToy/ptm/transformer.py` (reached from nezha.py through
`bert_transformer_layer(..., use_relative_position=True)`), which is not part
of the sources. -/
def relPosBucket (max_distance : Nat) (i j : Nat) : Int :=
  min (max ((j : Int) - (i : Int)) (-(max_distance : Int))) (max_distance : Int)
    + (max_distance : Int)

/-- `NeZhaEmbedding` (nezha.py lines 21-63): word-embedding lookup, rank-3
shape check, the `token_type_ids is None` raise, token-type embedding,
`+=`, and layer-norm + dropout.  Returns (embedding output, embedding table). -/
def NeZhaEmbedding {T F : Type} (P : Prims T F) (config : NezhaConfig)
    (input_ids : T) (token_type_ids : Option T) :
    Except NezhaError (T × T) := do
  let we := P.wordEmbeddingsLayer input_ids config.vocab_size
      config.hidden_size config.initializer_range ("word_embeddings")
      config.use_one_hot_embeddings
  let embedding_shape ← get_shape_list P we.1 3
  match token_type_ids with
  | none => .error .missingTokenTypeIds
  | some tti =>
    let token_type_embeddings := P.tokenTypeEmbeddingLayer embedding_shape tti
        config.type_vocab_size ("token_type_embeddings")
        config.initializer_range
    let embedding_output := P.addTensor we.1 token_type_embeddings
    let embedding_output :=
      P.layerNormAndDropout embedding_output config.hidden_dropout_prob
    .ok (embedding_output, we.2)

/-- The keyword arguments `NeZhaEncoder` passes to every
`bert_transformer_layer` call (nezha.py lines 111-125): note
`use_relative_position=True` and `do_return_attentions_probs =
config.output_attentions`. -/
def nezhaLayerArgs {T F : Type} (P : Prims T F) (config : NezhaConfig) :
    LayerArgs F :=
  { hidden_size := config.hidden_size
    num_attention_heads := config.num_attention_heads
    intermediate_size := config.intermediate_size
    intermediate_act_fn := P.getActivation config.hidden_act
    hidden_dropout_prob := config.hidden_dropout_prob
    attention_probs_dropout_prob := config.attention_probs_dropout_prob
    initializer_range := config.initializer_range
    use_relative_position := true
    do_return_attentions_probs := config.output_attentions }

/-- One iteration of the layer loop of `NeZhaEncoder` (nezha.py lines
108-130): state is (prev_output, all_layer_outputs, all_layer_attention_probs). -/
def encoderStep {T F : Type} (P : Prims T F) (config : NezhaConfig)
    (attention_mask : Option T) (batch_size seq_length : Nat)
    (st : T × List T × List T) (layer_idx : Nat) : T × List T × List T :=
  let layer_input := st.1
  let layer_output := P.bertTransformerLayer layer_idx layer_input
      batch_size seq_length attention_mask (nezhaLayerArgs P config)
  (layer_output.1,
   (if config.output_hidden_states then st.2.1 ++ [layer_output.1] else st.2.1),
   (if config.output_attentions then st.2.2 ++ [layer_output.2] else st.2.2))

/-- The layer loop of `NeZhaEncoder` run for `n` layers starting from
`prev_output = prev0` and empty collection lists. -/
def encoderLayers {T F : Type} (P : Prims T F) (config : NezhaConfig)
    (attention_mask : Option T) (batch_size seq_length : Nat) (prev0 : T)
    (n : Nat) : T × List T × List T :=
  (List.range n).foldl
    (encoderStep P config attention_mask batch_size seq_length)
    (prev0, ([] : List T), ([] : List T))

/-- `NeZhaEncoder` after its divisibility / rank checks and optional width
adapter (nezha.py lines 100-145): reshape to matrix, run the layer loop,
reshape the final output (and, when collected, every layer output) back with
the ORIGINAL `input_shape`, and build the variadic output tuple.  The first
component of the result is `final_output` (= `outputs[0]`), the second the
whole tuple. -/
def NeZhaEncoderPostAdapter {T F : Type} (P : Prims T F)
    (config : NezhaConfig) (input_tensor : T) (input_shape : List Nat)
    (attention_mask : Option T) : T × List (OutItem T) :=
  let batch_size := input_shape.getD 0 0
  let seq_length := input_shape.getD 1 0
  let prev_output := P.reshapeToMatrix input_tensor
  let st := encoderLayers P config attention_mask batch_size seq_length
      prev_output config.num_hidden_layers
  let final_output := P.reshapeFromMatrix st.1 input_shape
  let outputs : List (OutItem T) := [OutItem.hidden final_output]
  let outputs := if config.output_hidden_states then
      outputs ++ [OutItem.hiddenList
        (st.2.1.map (fun t => P.reshapeFromMatrix t input_shape))]
    else outputs
  let outputs := if config.output_attentions then
      outputs ++ [OutItem.attnList st.2.2]
    else outputs
  (final_output, outputs)

/-- `NeZhaEncoder` (nezha.py lines 66-145): the hidden-size divisibility
check comes first, then the rank-3 shape check, then the one-time
`embedding_hidden_mapping_in` dense adapter when the input width differs from
the hidden size, then the layer loop and output-tuple construction. -/
def NeZhaEncoder {T F : Type} (P : Prims T F) (config : NezhaConfig)
    (input_tensor : T) (attention_mask : Option T) :
    Except NezhaError (T × List (OutItem T)) :=
  if config.hidden_size % config.num_attention_heads ≠ 0 then
    .error (.hiddenSizeNotMultiple config.hidden_size
      config.num_attention_heads)
  else do
    let input_shape ← get_shape_list P input_tensor 3
    let input_width := input_shape.getD 2 0
    let input_tensor := if input_width ≠ config.hidden_size then
        P.denseLayer2d input_tensor config.hidden_size
          config.initializer_range none true ("embedding_hidden_mapping_in")
      else input_tensor
    .ok (NeZhaEncoderPostAdapter P config input_tensor input_shape
      attention_mask)

/-- `NeZhaModel.__init__` (nezha.py lines 148-196) as the function from the
inputs to `self.outputs`: rank-2 shape check on `input_ids`, the `tf.ones` /
`tf.zeros` defaults for a missing `input_mask` / `token_type_ids`, the
embedding stage, `create_attention_mask_from_input_mask`, the encoder, the
pooler, and `self.outputs = (pooled_output,) + encoder_outputs`.  The
`is_training` / `scope` / `reuse` parameters only steer variable scoping and
dropout inside the abstract primitives and are not modelled. -/
def NeZhaModel {T F : Type} (P : Prims T F) (config : NezhaConfig)
    (input_ids : T) (input_mask : Option T) (token_type_ids : Option T) :
    Except NezhaError (List (OutItem T)) := do
  let input_shape ← get_shape_list P input_ids 2
  let batch_size := input_shape.getD 0 0
  let seq_length := input_shape.getD 1 0
  let input_mask := match input_mask with
    | none => P.ones [batch_size, seq_length]
    | some m => m
  let token_type_ids := match token_type_ids with
    | none => P.zeros [batch_size, seq_length]
    | some t => t
  let emb ← NeZhaEmbedding P config input_ids (some token_type_ids)
  let attention_mask := P.createAttentionMaskFromInputMask input_ids input_mask
  let enc ← NeZhaEncoder P config emb.1 (some attention_mask)
  let pooled_output := P.poolerLayer enc.1 config.hidden_size
      config.initializer_range
  .ok ([OutItem.pooled pooled_output] ++ enc.2)

/-- The `input_mask` actually used by `NeZhaModel`: the given one, or the
`tf.ones([batch_size, seq_length])` default (nezha.py lines 165-166). -/
def resolvedInputMask {T F : Type} (P : Prims T F) (input_ids : T)
    (input_mask : Option T) : T :=
  match input_mask with
  | none => P.ones [(P.shape input_ids).getD 0 0, (P.shape input_ids).getD 1 0]
  | some m => m

/-- The `token_type_ids` actually used by `NeZhaModel`: the given one, or the
`tf.zeros([batch_size, seq_length])` default (nezha.py lines 168-169). -/
def resolvedTokenTypeIds {T F : Type} (P : Prims T F) (input_ids : T)
    (token_type_ids : Option T) : T :=
  match token_type_ids with
  | none => P.zeros [(P.shape input_ids).getD 0 0, (P.shape input_ids).getD 1 0]
  | some t => t

/-- The embedding output `NeZhaEmbedding` produces on its success path
(word embeddings + token-type embeddings, layer-normed and dropped out). -/
def nezhaEmbeddingOutput {T F : Type} (P : Prims T F) (config : NezhaConfig)
    (input_ids : T) (tti : T) : T :=
  let we := P.wordEmbeddingsLayer input_ids config.vocab_size
      config.hidden_size config.initializer_range ("word_embeddings")
      config.use_one_hot_embeddings
  P.layerNormAndDropout
    (P.addTensor we.1
      (P.tokenTypeEmbeddingLayer (P.shape we.1) tti config.type_vocab_size
        ("token_type_embeddings") config.initializer_range))
    config.hidden_dropout_prob

/-- A concrete instantiation of the primitives used to evaluate the model on
explicit inputs: a tensor is represented by its shape (`List Nat`), an
activation function by `Unit`. -/
def demoPrims : Prims (List Nat) Unit where
  shape := fun t => t
  wordEmbeddingsLayer := fun ids _ emb _ _ _ => (ids ++ [emb], ids)
  tokenTypeEmbeddingLayer := fun sh _ _ _ _ => sh
  addTensor := fun a _ => a
  layerNormAndDropout := fun t _ => t
  denseLayer2d := fun t n _ _ _ _ => t.take 2 ++ [n]
  reshapeToMatrix := fun t => t
  reshapeFromMatrix := fun t _ => t
  createAttentionMaskFromInputMask := fun a b => a ++ b
  bertTransformerLayer := fun i t _ _ _ _ => (t ++ [i], t)
  poolerLayer := fun t _ _ => t
  getActivation := fun _ => ()
  ones := fun l => l
  zeros := fun l => l

/-- A concrete configuration with `hidden_size` a multiple of the head count
and both output-collection flags on. -/
def demoCfg : NezhaConfig where
  vocab_size := 21128
  hidden_size := 12
  num_attention_heads := 3
  num_hidden_layers := 2
  intermediate_size := 24
  hidden_act := "gelu"
  hidden_dropout_prob := 0
  attention_probs_dropout_prob := 0
  initializer_range := 0
  type_vocab_size := 2
  use_one_hot_embeddings := false
  output_attentions := true
  output_hidden_states := true

/-- `demoCfg` with `hidden_size` NOT a multiple of the head count. -/
def demoCfgBad : NezhaConfig :=
  { demoCfg with hidden_size := 10 }

/-- `demoCfg` with zero hidden layers. -/
def demoCfgZero : NezhaConfig :=
  { demoCfg with num_hidden_layers := 0 }

/-- A concrete rank-2 `input_ids` tensor (batch 2, sequence length 3) in the
shape representation of `demoPrims`. -/
def demoIds : List Nat := [2, 3]

/-- The pairwise attention mask `NeZhaModel` builds for `demoIds` with the
default (absent) `input_mask`. -/
def demoMask0 : List Nat :=
  demoPrims.createAttentionMaskFromInputMask demoIds
    (resolvedInputMask demoPrims demoIds none)

/-- A concrete transformer-layer primitive. -/
def demoLayerA (i : Nat) (t : List Nat) (_b _s : Nat) (_m : Option (List Nat))
    (_a : LayerArgs Unit) : List Nat × List Nat :=
  (t ++ [i], t)

/-- A transformer-layer primitive that agrees with `demoLayerA` exactly on
the mask `some demoMask0` and differs elsewhere. -/
def demoLayerB (i : Nat) (t : List Nat) (_b _s : Nat) (m : Option (List Nat))
    (_a : LayerArgs Unit) : List Nat × List Nat :=
  if m = some demoMask0 then (t ++ [i], t) else ([99], [99])

section EncoderLoopLemmas

variable {T F : Type}

lemma encoderLayers_zero (P : Prims T F) (config : NezhaConfig)
    (m : Option T) (b s : Nat) (p0 : T) :
    encoderLayers P config m b s p0 0 = (p0, [], []) := rfl

lemma encoderLayers_succ (P : Prims T F) (config : NezhaConfig)
    (m : Option T) (b s : Nat) (p0 : T) (n : Nat) :
    encoderLayers P config m b s p0 (n + 1)
      = encoderStep P config m b s (encoderLayers P config m b s p0 n) n := by
  simp [encoderLayers, List.range_succ]

lemma encoderLayers_hidden_length (P : Prims T F) (config : NezhaConfig)
    (m : Option T) (b s : Nat) (p0 : T) (n : Nat) :
    ((encoderLayers P config m b s p0 n).2.1).length
      = if config.output_hidden_states then n else 0 := by
  induction n with
  | zero => simp [encoderLayers]
  | succ k ih =>
      rw [encoderLayers_succ]
      by_cases hf : config.output_hidden_states <;>
        simp [encoderStep, hf, ih]

lemma encoderLayers_attn_length (P : Prims T F) (config : NezhaConfig)
    (m : Option T) (b s : Nat) (p0 : T) (n : Nat) :
    ((encoderLayers P config m b s p0 n).2.2).length
      = if config.output_attentions then n else 0 := by
  induction n with
  | zero => simp [encoderLayers]
  | succ k ih =>
      rw [encoderLayers_succ]
      by_cases hf : config.output_attentions <;>
        simp [encoderStep, hf, ih]

lemma encoderLayers_hidden_getElem (P : Prims T F) (config : NezhaConfig)
    (m : Option T) (b s : Nat) (p0 : T)
    (hf : config.output_hidden_states = true) :
    ∀ n k, k < n →
      ((encoderLayers P config m b s p0 n).2.1)[k]?
        = some ((encoderLayers P config m b s p0 (k + 1)).1) := by
  intro n
  induction n with
  | zero => intro k hk; omega
  | succ j ih =>
      intro k hk
      have hlen : ((encoderLayers P config m b s p0 j).2.1).length = j := by
        rw [encoderLayers_hidden_length, hf]; rfl
      rcases Nat.lt_or_ge k j with hkj | hkj
      · rw [encoderLayers_succ]
        simp only [encoderStep, hf, if_true]
        rw [List.getElem?_append_left (by omega)]
        exact ih k hkj
      · have hk' : k = j := by omega
        subst hk'
        rw [encoderLayers_succ]
        simp only [encoderStep, hf, if_true]
        have hcat : ∀ (l : List T) (a : T), l.length = k →
            (l ++ [a])[k]? = some a := by
          intro l a hl
          rw [← hl]
          exact List.getElem?_concat_length l a
        rw [hcat _ _ hlen]

lemma encoderLayers_attn_getElem (P : Prims T F) (config : NezhaConfig)
    (m : Option T) (b s : Nat) (p0 : T)
    (ha : config.output_attentions = true) :
    ∀ n k, k < n →
      ((encoderLayers P config m b s p0 n).2.2)[k]?
        = some ((P.bertTransformerLayer k
            (encoderLayers P config m b s p0 k).1 b s m
            (nezhaLayerArgs P config)).2) := by
  intro n
  induction n with
  | zero => intro k hk; omega
  | succ j ih =>
      intro k hk
      have hlen : ((encoderLayers P config m b s p0 j).2.2).length = j := by
        rw [encoderLayers_attn_length, ha]; rfl
      rcases Nat.lt_or_ge k j with hkj | hkj
      · rw [encoderLayers_succ]
        simp only [encoderStep, ha, if_true]
        rw [List.getElem?_append_left (by omega)]
        exact ih k hkj
      · have hk' : k = j := by omega
        subst hk'
        rw [encoderLayers_succ]
        simp only [encoderStep, ha, if_true]
        have hcat : ∀ (l : List T) (a : T), l.length = k →
            (l ++ [a])[k]? = some a := by
          intro l a hl
          rw [← hl]
          exact List.getElem?_concat_length l a
        rw [hcat _ _ hlen]

lemma encoderLayers_hidden_getLast (P : Prims T F) (config : NezhaConfig)
    (m : Option T) (b s : Nat) (p0 : T)
    (hf : config.output_hidden_states = true) (n : Nat) (hn : 1 ≤ n) :
    ((encoderLayers P config m b s p0 n).2.1).getLast?
      = some ((encoderLayers P config m b s p0 n).1) := by
  cases n with
  | zero => omega
  | succ j =>
      rw [encoderLayers_succ]
      simp [encoderStep, hf, List.getLast?_concat]

lemma encoderLayers_btl_congr (P : Prims T F) (config : NezhaConfig)
    (m : Option T) (b s : Nat) (p0 : T) (n : Nat)
    (f : Nat → T → Nat → Nat → Option T → LayerArgs F → T × T)
    (h : ∀ i, i < n → ∀ t b' s' m' a,
      f i t b' s' m' a = P.bertTransformerLayer i t b' s' m' a) :
    encoderLayers { P with bertTransformerLayer := f } config m b s p0 n
      = encoderLayers P config m b s p0 n := by
  induction n with
  | zero => rfl
  | succ j ih =>
      rw [encoderLayers_succ, encoderLayers_succ]
      rw [ih (fun i hi => h i (by omega))]
      simp only [encoderStep, nezhaLayerArgs]
      rw [h j (by omega)]

lemma encoderLayers_mask_congr (P : Prims T F) (config : NezhaConfig)
    (m : Option T) (b s : Nat) (p0 : T) (n : Nat)
    (f g : Nat → T → Nat → Nat → Option T → LayerArgs F → T × T)
    (h : ∀ i t b' s' a, f i t b' s' m a = g i t b' s' m a) :
    encoderLayers { P with bertTransformerLayer := f } config m b s p0 n
      = encoderLayers { P with bertTransformerLayer := g } config m b s p0 n := by
  induction n with
  | zero => rfl
  | succ j ih =>
      rw [encoderLayers_succ, encoderLayers_succ, ih]
      simp only [encoderStep, nezhaLayerArgs]
      rw [h j]

end EncoderLoopLemmas

section UnfoldingLemmas

variable {T F : Type}

lemma except_bind_ok {ε α β : Type _} (v : α) (f : α → Except ε β) :
    Except.bind (Except.ok v) f = f v := rfl

lemma except_bind_map {ε α β : Type _} (e : Except ε α) (f : α → β) :
    Except.bind e (fun v => Except.ok (f v)) = Except.map f e := by
  cases e <;> rfl

lemma NeZhaEmbedding_some_eq (P : Prims T F) (config : NezhaConfig)
    (input_ids : T) (tti : T)
    (h3 : (P.shape (P.wordEmbeddingsLayer input_ids config.vocab_size
        config.hidden_size config.initializer_range ("word_embeddings")
        config.use_one_hot_embeddings).1).length = 3) :
    NeZhaEmbedding P config input_ids (some tti)
      = .ok (nezhaEmbeddingOutput P config input_ids tti,
          (P.wordEmbeddingsLayer input_ids config.vocab_size
            config.hidden_size config.initializer_range ("word_embeddings")
            config.use_one_hot_embeddings).2) := by
  simp [NeZhaEmbedding, get_shape_list, h3, nezhaEmbeddingOutput,
    Bind.bind, Except.bind]

lemma NeZhaEmbedding_none_rank3 (P : Prims T F) (config : NezhaConfig)
    (input_ids : T)
    (h3 : (P.shape (P.wordEmbeddingsLayer input_ids config.vocab_size
        config.hidden_size config.initializer_range ("word_embeddings")
        config.use_one_hot_embeddings).1).length = 3) :
    NeZhaEmbedding P config input_ids none
      = .error NezhaError.missingTokenTypeIds := by
  simp [NeZhaEmbedding, get_shape_list, h3, Bind.bind, Except.bind]

lemma NeZhaEncoder_error_of_not_dvd (P : Prims T F) (config : NezhaConfig)
    (x : T) (m : Option T)
    (h : config.hidden_size % config.num_attention_heads ≠ 0) :
    NeZhaEncoder P config x m
      = .error (.hiddenSizeNotMultiple config.hidden_size
          config.num_attention_heads) := by
  simp [NeZhaEncoder, h]

lemma NeZhaEncoder_ok_eq (P : Prims T F) (config : NezhaConfig)
    (x : T) (m : Option T)
    (hd : config.hidden_size % config.num_attention_heads = 0)
    (h3 : (P.shape x).length = 3) :
    NeZhaEncoder P config x m
      = .ok (NeZhaEncoderPostAdapter P config
          (if (P.shape x).getD 2 0 ≠ config.hidden_size then
            P.denseLayer2d x config.hidden_size config.initializer_range
              none true ("embedding_hidden_mapping_in")
          else x) (P.shape x) m) := by
  simp [NeZhaEncoder, hd, get_shape_list, h3, Bind.bind, Except.bind]

lemma NeZhaModel_resolve (P : Prims T F) (config : NezhaConfig)
    (input_ids : T) (input_mask token_type_ids : Option T)
    (h2 : (P.shape input_ids).length = 2) :
    NeZhaModel P config input_ids input_mask token_type_ids
      = NeZhaModel P config input_ids
          (some (resolvedInputMask P input_ids input_mask))
          (some (resolvedTokenTypeIds P input_ids token_type_ids)) := by
  cases input_mask <;> cases token_type_ids <;>
    simp [NeZhaModel, get_shape_list, h2, resolvedInputMask,
      resolvedTokenTypeIds, Bind.bind, Except.bind]

lemma NeZhaModel_core (P : Prims T F) (config : NezhaConfig) (input_ids : T)
    (im tti : T)
    (h2 : (P.shape input_ids).length = 2)
    (h3 : (P.shape (P.wordEmbeddingsLayer input_ids config.vocab_size
        config.hidden_size config.initializer_range ("word_embeddings")
        config.use_one_hot_embeddings).1).length = 3) :
    NeZhaModel P config input_ids (some im) (some tti)
      = (NeZhaEncoder P config (nezhaEmbeddingOutput P config input_ids tti)
          (some (P.createAttentionMaskFromInputMask input_ids im))).map
        (fun enc => [OutItem.pooled (P.poolerLayer enc.1 config.hidden_size
          config.initializer_range)] ++ enc.2) := by
  have hE := NeZhaEmbedding_some_eq P config input_ids tti h3
  simp only [NeZhaModel, get_shape_list, h2, if_true, eq_self_iff_true,
    Bind.bind]
  rw [except_bind_ok, hE, except_bind_ok]
  exact except_bind_map _ _

lemma NeZhaModel_eq (P : Prims T F) (config : NezhaConfig) (input_ids : T)
    (input_mask token_type_ids : Option T)
    (h2 : (P.shape input_ids).length = 2)
    (h3 : (P.shape (P.wordEmbeddingsLayer input_ids config.vocab_size
        config.hidden_size config.initializer_range ("word_embeddings")
        config.use_one_hot_embeddings).1).length = 3) :
    NeZhaModel P config input_ids input_mask token_type_ids
      = (NeZhaEncoder P config
          (nezhaEmbeddingOutput P config input_ids
            (resolvedTokenTypeIds P input_ids token_type_ids))
          (some (P.createAttentionMaskFromInputMask input_ids
            (resolvedInputMask P input_ids input_mask)))).map
        (fun enc => [OutItem.pooled (P.poolerLayer enc.1 config.hidden_size
          config.initializer_range)] ++ enc.2) := by
  rw [NeZhaModel_resolve P config input_ids input_mask token_type_ids h2]
  exact NeZhaModel_core P config input_ids _ _ h2 h3

lemma NeZhaEncoder_rank_error (P : Prims T F) (config : NezhaConfig)
    (x : T) (m : Option T)
    (hd : config.hidden_size % config.num_attention_heads = 0)
    (h3 : (P.shape x).length ≠ 3) :
    NeZhaEncoder P config x m
      = .error (.rankMismatch 3 (P.shape x).length) := by
  simp [NeZhaEncoder, hd, get_shape_list, h3, Bind.bind, Except.bind]

lemma NeZhaModel_rank2_error (P : Prims T F) (config : NezhaConfig)
    (input_ids : T) (input_mask token_type_ids : Option T)
    (h2 : (P.shape input_ids).length ≠ 2) :
    NeZhaModel P config input_ids input_mask token_type_ids
      = .error (.rankMismatch 2 (P.shape input_ids).length) := by
  simp [NeZhaModel, get_shape_list, h2, Bind.bind, Except.bind]

lemma NeZhaModel_rank3_error (P : Prims T F) (config : NezhaConfig)
    (input_ids : T) (input_mask token_type_ids : Option T)
    (h2 : (P.shape input_ids).length = 2)
    (h3 : (P.shape (P.wordEmbeddingsLayer input_ids config.vocab_size
        config.hidden_size config.initializer_range ("word_embeddings")
        config.use_one_hot_embeddings).1).length ≠ 3) :
    NeZhaModel P config input_ids input_mask token_type_ids
      = .error (.rankMismatch 3
          (P.shape (P.wordEmbeddingsLayer input_ids config.vocab_size
            config.hidden_size config.initializer_range ("word_embeddings")
            config.use_one_hot_embeddings).1).length) := by
  rw [NeZhaModel_resolve P config input_ids input_mask token_type_ids h2]
  simp [NeZhaModel, get_shape_list, h2, h3, NeZhaEmbedding,
    Bind.bind, Except.bind]

lemma NeZhaEncoder_ne_missingTokenTypeIds (P : Prims T F)
    (config : NezhaConfig) (x : T) (m : Option T) :
    NeZhaEncoder P config x m ≠ .error NezhaError.missingTokenTypeIds := by
  by_cases hd : config.hidden_size % config.num_attention_heads = 0
  · by_cases h3 : (P.shape x).length = 3
    · rw [NeZhaEncoder_ok_eq P config x m hd h3]
      simp
    · rw [NeZhaEncoder_rank_error P config x m hd h3]
      simp
  · rw [NeZhaEncoder_error_of_not_dvd P config x m hd]
    simp

lemma NeZhaEncoderPostAdapter_mask_congr (P : Prims T F)
    (config : NezhaConfig) (x : T) (sh : List Nat) (m : Option T)
    (f g : Nat → T → Nat → Nat → Option T → LayerArgs F → T × T)
    (h : ∀ i t b' s' a, f i t b' s' m a = g i t b' s' m a) :
    NeZhaEncoderPostAdapter { P with bertTransformerLayer := f } config x sh m
      = NeZhaEncoderPostAdapter { P with bertTransformerLayer := g } config
          x sh m := by
  simp only [NeZhaEncoderPostAdapter]
  rw [encoderLayers_mask_congr P config m (sh.getD 0 0) (sh.getD 1 0)
    (P.reshapeToMatrix x) config.num_hidden_layers f g h]

lemma NeZhaEncoder_mask_congr (P : Prims T F) (config : NezhaConfig)
    (x : T) (m : Option T)
    (f g : Nat → T → Nat → Nat → Option T → LayerArgs F → T × T)
    (h : ∀ i t b' s' a, f i t b' s' m a = g i t b' s' m a) :
    NeZhaEncoder { P with bertTransformerLayer := f } config x m
      = NeZhaEncoder { P with bertTransformerLayer := g } config x m := by
  by_cases hd : config.hidden_size % config.num_attention_heads = 0
  · by_cases h3 : (P.shape x).length = 3
    · rw [NeZhaEncoder_ok_eq { P with bertTransformerLayer := f } config x m
          hd h3,
        NeZhaEncoder_ok_eq { P with bertTransformerLayer := g } config x m
          hd h3,
        NeZhaEncoderPostAdapter_mask_congr P config _ _ m f g h]
    · rw [NeZhaEncoder_rank_error { P with bertTransformerLayer := f } config
          x m hd h3,
        NeZhaEncoder_rank_error { P with bertTransformerLayer := g } config
          x m hd h3]
  · rw [NeZhaEncoder_error_of_not_dvd { P with bertTransformerLayer := f }
        config x m hd,
      NeZhaEncoder_error_of_not_dvd { P with bertTransformerLayer := g }
        config x m hd]

end UnfoldingLemmas

/-- C2: for every sequence length L ≥ 1 and maximum relative distance D ≥ 0,
the relative-position bucket bucket(i,j) = clip(j-i, -D, D) + D satisfies
bucket(i,j) + bucket(j,i) = 2*D for all pairs (i,j) in [0,L) × [0,L), and
bucket(i,i) = D (the center bucket) for every i. -/
theorem relPosBucket_swap_sum_and_center (L D i j : Nat)
    (hL : 1 ≤ L) (hi : i < L) (hj : j < L) :
    relPosBucket D i j + relPosBucket D j i = 2 * (D : Int)
      ∧ relPosBucket D i i = (D : Int) := by
  unfold relPosBucket
  constructor <;> omega

/-- Witness for C2 at L = 5, D = 4, i = 1, j = 3. -/
theorem relPosBucket_swap_sum_and_center_witness :
    relPosBucket 4 1 3 + relPosBucket 4 3 1 = 2 * (4 : Int)
      ∧ relPosBucket 4 1 1 = (4 : Int) :=
  relPosBucket_swap_sum_and_center 5 4 1 3 (by decide) (by decide) (by decide)

/-- C1: for every configuration with `hidden_size` not an exact multiple of
`num_attention_heads`, constructing `NeZhaModel` fails with the
hidden-size-not-a-multiple `ValueError`, and it does so for every possible
transformer-layer primitive, i.e. before (and independently of) any layer;
for every configuration with `hidden_size % num_attention_heads = 0`,
construction does not raise: it succeeds outright (given well-ranked
inputs). -/
theorem nezha_model_hidden_size_divisibility {T F : Type} (P : Prims T F)
    (config : NezhaConfig) (input_ids : T)
    (input_mask token_type_ids : Option T)
    (h2 : (P.shape input_ids).length = 2)
    (h3 : (P.shape (P.wordEmbeddingsLayer input_ids config.vocab_size
        config.hidden_size config.initializer_range ("word_embeddings")
        config.use_one_hot_embeddings).1).length = 3)
    (h3e : (P.shape (nezhaEmbeddingOutput P config input_ids
        (resolvedTokenTypeIds P input_ids token_type_ids))).length = 3) :
    (config.hidden_size % config.num_attention_heads ≠ 0 →
       NeZhaModel P config input_ids input_mask token_type_ids
         = .error (.hiddenSizeNotMultiple config.hidden_size
             config.num_attention_heads)
       ∧ ∀ btl, NeZhaModel { P with bertTransformerLayer := btl } config
             input_ids input_mask token_type_ids
           = .error (.hiddenSizeNotMultiple config.hidden_size
               config.num_attention_heads))
    ∧ (config.hidden_size % config.num_attention_heads = 0 →
       ∃ out, NeZhaModel P config input_ids input_mask token_type_ids
         = .ok out) := by
  constructor
  · intro hnd
    constructor
    · rw [NeZhaModel_eq P config input_ids input_mask token_type_ids h2 h3,
        NeZhaEncoder_error_of_not_dvd P config _ _ hnd]
      rfl
    · intro btl
      rw [NeZhaModel_eq { P with bertTransformerLayer := btl } config
          input_ids input_mask token_type_ids h2 h3,
        NeZhaEncoder_error_of_not_dvd { P with bertTransformerLayer := btl }
          config _ _ hnd]
      rfl
  · intro hd
    rw [NeZhaModel_eq P config input_ids input_mask token_type_ids h2 h3,
      NeZhaEncoder_ok_eq P config _ _ hd h3e]
    exact ⟨_, rfl⟩

/-- Witness for C1: with `hidden_size = 10`, `num_attention_heads = 3` the
construction yields exactly the divisibility error; with `hidden_size = 12`
it succeeds. -/
theorem nezha_model_hidden_size_divisibility_witness :
    NeZhaModel demoPrims demoCfgBad demoIds none none
        = .error (.hiddenSizeNotMultiple 10 3)
      ∧ ∃ out, NeZhaModel demoPrims demoCfg demoIds none none = .ok out :=
  ⟨((nezha_model_hidden_size_divisibility demoPrims demoCfgBad demoIds
      none none (by decide) (by decide) (by decide)).1 (by decide)).1,
   (nezha_model_hidden_size_divisibility demoPrims demoCfg demoIds
      none none (by decide) (by decide) (by decide)).2 (by decide)⟩

/-- C4: a missing `input_mask` behaves exactly as an all-ones
`[batch, seq_length]` mask, and a missing `token_type_ids` behaves exactly
as an all-zeros tensor of the same shape. -/
theorem nezha_model_defaults {T F : Type} (P : Prims T F)
    (config : NezhaConfig) (input_ids : T)
    (input_mask token_type_ids : Option T) :
    (NeZhaModel P config input_ids none token_type_ids
       = NeZhaModel P config input_ids
           (some (P.ones [(P.shape input_ids).getD 0 0,
             (P.shape input_ids).getD 1 0])) token_type_ids)
    ∧ (NeZhaModel P config input_ids input_mask none
       = NeZhaModel P config input_ids input_mask
           (some (P.zeros [(P.shape input_ids).getD 0 0,
             (P.shape input_ids).getD 1 0]))) := by
  by_cases h2 : (P.shape input_ids).length = 2
  · constructor
    · cases token_type_ids <;>
        simp [NeZhaModel, get_shape_list, h2, Bind.bind, Except.bind]
    · cases input_mask <;>
        simp [NeZhaModel, get_shape_list, h2, Bind.bind, Except.bind]
  · constructor
    · rw [NeZhaModel_rank2_error P config input_ids none token_type_ids h2,
        NeZhaModel_rank2_error P config input_ids _ token_type_ids h2]
    · rw [NeZhaModel_rank2_error P config input_ids input_mask none h2,
        NeZhaModel_rank2_error P config input_ids input_mask _ h2]

/-- C5: the missing-`token_type_ids` error branch of `NeZhaEmbedding` is
unreachable through `NeZhaModel`: no invocation of `NeZhaModel` ever
returns that error (the model always substitutes an all-zeros default
before calling the embedding). -/
theorem nezha_missing_token_type_branch_unreachable {T F : Type}
    (P : Prims T F) (config : NezhaConfig) (input_ids : T)
    (input_mask token_type_ids : Option T) :
    NeZhaModel P config input_ids input_mask token_type_ids
      ≠ Except.error NezhaError.missingTokenTypeIds := by
  intro h
  by_cases h2 : (P.shape input_ids).length = 2
  · by_cases h3 : (P.shape (P.wordEmbeddingsLayer input_ids config.vocab_size
        config.hidden_size config.initializer_range ("word_embeddings")
        config.use_one_hot_embeddings).1).length = 3
    · rw [NeZhaModel_eq P config input_ids input_mask token_type_ids h2 h3]
        at h
      cases hEnc : NeZhaEncoder P config
          (nezhaEmbeddingOutput P config input_ids
            (resolvedTokenTypeIds P input_ids token_type_ids))
          (some (P.createAttentionMaskFromInputMask input_ids
            (resolvedInputMask P input_ids input_mask))) with
      | error e =>
          rw [hEnc] at h
          simp only [Except.map] at h
          cases h
          exact NeZhaEncoder_ne_missingTokenTypeIds P config _ _ hEnc
      | ok v =>
          rw [hEnc] at h
          simp [Except.map] at h
    · rw [NeZhaModel_rank3_error P config input_ids input_mask
          token_type_ids h2 h3] at h
      cases h
  · rw [NeZhaModel_rank2_error P config input_ids input_mask
        token_type_ids h2] at h
    cases h

lemma NeZhaEncoderPostAdapter_snd {T F : Type} (P : Prims T F)
    (config : NezhaConfig) (x : T) (sh : List Nat) (m : Option T) :
    (NeZhaEncoderPostAdapter P config x sh m).2
      = [OutItem.hidden (NeZhaEncoderPostAdapter P config x sh m).1]
        ++ (if config.output_hidden_states then
            [OutItem.hiddenList ((encoderLayers P config m (sh.getD 0 0)
              (sh.getD 1 0) (P.reshapeToMatrix x)
              config.num_hidden_layers).2.1.map
                (fun t => P.reshapeFromMatrix t sh))]
          else [])
        ++ (if config.output_attentions then
            [OutItem.attnList (encoderLayers P config m (sh.getD 0 0)
              (sh.getD 1 0) (P.reshapeToMatrix x)
              config.num_hidden_layers).2.2]
          else []) := by
  by_cases hh : config.output_hidden_states <;>
    by_cases ha : config.output_attentions <;>
    simp [NeZhaEncoderPostAdapter, hh, ha]

/-- C3: every successful forward pass returns the bundle in the fixed order
(pooled output, final hidden state, all-hidden-states list iff the flag is
set, all-attention-probs list iff the flag is set), and each optional list,
when present, has exactly `num_hidden_layers` entries. -/
theorem nezha_model_output_bundle_order {T F : Type} (P : Prims T F)
    (config : NezhaConfig) (input_ids : T)
    (input_mask token_type_ids : Option T) (out : List (OutItem T))
    (h : NeZhaModel P config input_ids input_mask token_type_ids = .ok out) :
    ∃ p h0 hl al,
      out = [OutItem.pooled p, OutItem.hidden h0]
          ++ (if config.output_hidden_states then [OutItem.hiddenList hl]
            else [])
          ++ (if config.output_attentions then [OutItem.attnList al]
            else [])
      ∧ (config.output_hidden_states = true →
          hl.length = config.num_hidden_layers)
      ∧ (config.output_attentions = true →
          al.length = config.num_hidden_layers) := by
  by_cases h2 : (P.shape input_ids).length = 2
  case neg =>
    rw [NeZhaModel_rank2_error P config input_ids input_mask
      token_type_ids h2] at h
    cases h
  by_cases h3 : (P.shape (P.wordEmbeddingsLayer input_ids config.vocab_size
      config.hidden_size config.initializer_range ("word_embeddings")
      config.use_one_hot_embeddings).1).length = 3
  case neg =>
    rw [NeZhaModel_rank3_error P config input_ids input_mask
      token_type_ids h2 h3] at h
    cases h
  rw [NeZhaModel_eq P config input_ids input_mask token_type_ids h2 h3] at h
  by_cases hd : config.hidden_size % config.num_attention_heads = 0
  case neg =>
    rw [NeZhaEncoder_error_of_not_dvd P config _ _ hd] at h
    cases h
  by_cases h3e : (P.shape (nezhaEmbeddingOutput P config input_ids
      (resolvedTokenTypeIds P input_ids token_type_ids))).length = 3
  case neg =>
    rw [NeZhaEncoder_rank_error P config _ _ hd h3e] at h
    cases h
  rw [NeZhaEncoder_ok_eq P config _ _ hd h3e] at h
  simp only [Except.map, Except.ok.injEq] at h
  subst h
  set x0 := (if (P.shape (nezhaEmbeddingOutput P config input_ids
      (resolvedTokenTypeIds P input_ids token_type_ids))).getD 2 0
        ≠ config.hidden_size then
      P.denseLayer2d (nezhaEmbeddingOutput P config input_ids
        (resolvedTokenTypeIds P input_ids token_type_ids))
        config.hidden_size config.initializer_range none true
        ("embedding_hidden_mapping_in")
    else nezhaEmbeddingOutput P config input_ids
      (resolvedTokenTypeIds P input_ids token_type_ids)) with hx0
  set sh := P.shape (nezhaEmbeddingOutput P config input_ids
    (resolvedTokenTypeIds P input_ids token_type_ids)) with hsh
  set m0 := some (P.createAttentionMaskFromInputMask input_ids
    (resolvedInputMask P input_ids input_mask)) with hm0
  refine ⟨P.poolerLayer (NeZhaEncoderPostAdapter P config x0 sh m0).1
      config.hidden_size config.initializer_range,
    (NeZhaEncoderPostAdapter P config x0 sh m0).1,
    (encoderLayers P config m0 (sh.getD 0 0) (sh.getD 1 0)
      (P.reshapeToMatrix x0) config.num_hidden_layers).2.1.map
        (fun t => P.reshapeFromMatrix t sh),
    (encoderLayers P config m0 (sh.getD 0 0) (sh.getD 1 0)
      (P.reshapeToMatrix x0) config.num_hidden_layers).2.2,
    ?_, ?_, ?_⟩
  · rw [NeZhaEncoderPostAdapter_snd]
    simp only [List.singleton_append, List.cons_append, List.nil_append,
      List.append_assoc]
  · intro hf
    rw [List.length_map, encoderLayers_hidden_length, hf]
    simp
  · intro ha
    rw [encoderLayers_attn_length, ha]
    simp

/-- C6: the width adapter (`embedding_hidden_mapping_in`) is applied exactly
when the input width differs from the hidden size, once, before the layer
loop; the post-adapter stage (the whole layer loop and output construction)
never consults the dense-projection primitive. -/
theorem nezha_encoder_adapter_once {T F : Type} (P : Prims T F)
    (config : NezhaConfig) (x : T) (m : Option T)
    (hd : config.hidden_size % config.num_attention_heads = 0)
    (h3 : (P.shape x).length = 3) :
    ((P.shape x).getD 2 0 ≠ config.hidden_size →
       NeZhaEncoder P config x m
         = .ok (NeZhaEncoderPostAdapter P config
             (P.denseLayer2d x config.hidden_size config.initializer_range
               none true ("embedding_hidden_mapping_in")) (P.shape x) m))
    ∧ ((P.shape x).getD 2 0 = config.hidden_size →
       NeZhaEncoder P config x m
         = .ok (NeZhaEncoderPostAdapter P config x (P.shape x) m))
    ∧ (∀ d x' sh m', NeZhaEncoderPostAdapter
        { P with denseLayer2d := d } config x' sh m'
        = NeZhaEncoderPostAdapter P config x' sh m') := by
  refine ⟨?_, ?_, ?_⟩
  · intro hw
    rw [NeZhaEncoder_ok_eq P config x m hd h3, if_pos hw]
  · intro hw
    rw [NeZhaEncoder_ok_eq P config x m hd h3,
      if_neg (fun hc => hc hw)]
  · intro d x' sh m'
    rfl

/-- Witness for C3 at the concrete run of `demoPrims` / `demoCfg`. -/
theorem nezha_model_output_bundle_order_witness :
    ∃ p h0 hl al,
      ([OutItem.pooled [2, 3, 12, 0, 1], OutItem.hidden [2, 3, 12, 0, 1],
        OutItem.hiddenList [[2, 3, 12, 0], [2, 3, 12, 0, 1]],
        OutItem.attnList [[2, 3, 12], [2, 3, 12, 0]]] :
          List (OutItem (List Nat)))
        = [OutItem.pooled p, OutItem.hidden h0]
          ++ (if demoCfg.output_hidden_states then [OutItem.hiddenList hl]
            else [])
          ++ (if demoCfg.output_attentions then [OutItem.attnList al]
            else [])
      ∧ (demoCfg.output_hidden_states = true →
          hl.length = demoCfg.num_hidden_layers)
      ∧ (demoCfg.output_attentions = true →
          al.length = demoCfg.num_hidden_layers) :=
  nezha_model_output_bundle_order demoPrims demoCfg demoIds none none
    [OutItem.pooled [2, 3, 12, 0, 1], OutItem.hidden [2, 3, 12, 0, 1],
      OutItem.hiddenList [[2, 3, 12, 0], [2, 3, 12, 0, 1]],
      OutItem.attnList [[2, 3, 12], [2, 3, 12, 0]]] rfl

/-- Witness for C6 at a concrete input of width 7 ≠ hidden size 12: exactly
one dense projection is applied before the loop. -/
theorem nezha_encoder_adapter_once_witness :
    NeZhaEncoder demoPrims demoCfg [2, 3, 7] none
      = .ok (NeZhaEncoderPostAdapter demoPrims demoCfg
          (demoPrims.denseLayer2d [2, 3, 7] demoCfg.hidden_size
            demoCfg.initializer_range none true
            ("embedding_hidden_mapping_in"))
          (demoPrims.shape [2, 3, 7]) none) :=
  (nezha_encoder_adapter_once demoPrims demoCfg [2, 3, 7] none
    (by decide) (by decide)).1 (by decide)

/-- C7: the encoder layer loop threads state strictly forward: layer 0
receives the initial (post-adapter, reshaped) tensor, the input of layer
k+1 is the output of layer k, the state after n layers depends on the layer
primitive only at indices below n (no layer sees a future layer's output),
and the collected hidden-state and attention lists are indexed in execution
order (entry k is layer k's output / attention probabilities); the final
encoder output is the last threaded state reshaped back. -/
theorem nezha_encoder_layer_threading {T F : Type} (P : Prims T F)
    (config : NezhaConfig) (m : Option T) (b s : Nat) (p0 : T) :
    ((encoderLayers P config m b s p0 0).1 = p0)
    ∧ (∀ k, (encoderLayers P config m b s p0 (k + 1)).1
        = (P.bertTransformerLayer k (encoderLayers P config m b s p0 k).1
            b s m (nezhaLayerArgs P config)).1)
    ∧ (∀ n btl,
        (∀ i, i < n → ∀ t b' s' m' a,
          btl i t b' s' m' a = P.bertTransformerLayer i t b' s' m' a) →
        encoderLayers { P with bertTransformerLayer := btl } config m b s p0 n
          = encoderLayers P config m b s p0 n)
    ∧ (config.output_hidden_states = true → ∀ k n, k < n →
        ((encoderLayers P config m b s p0 n).2.1)[k]?
          = some ((encoderLayers P config m b s p0 (k + 1)).1))
    ∧ (config.output_attentions = true → ∀ k n, k < n →
        ((encoderLayers P config m b s p0 n).2.2)[k]?
          = some ((P.bertTransformerLayer k
              (encoderLayers P config m b s p0 k).1 b s m
              (nezhaLayerArgs P config)).2))
    ∧ (∀ (x : T) (sh : List Nat),
        (NeZhaEncoderPostAdapter P config x sh m).1
          = P.reshapeFromMatrix
              (encoderLayers P config m (sh.getD 0 0) (sh.getD 1 0)
                (P.reshapeToMatrix x) config.num_hidden_layers).1 sh) := by
  refine ⟨rfl, ?_, ?_, ?_, ?_, ?_⟩
  · intro k
    rw [encoderLayers_succ]
    rfl
  · intro n btl h
    exact encoderLayers_btl_congr P config m b s p0 n btl h
  · intro hf k n hk
    exact encoderLayers_hidden_getElem P config m b s p0 hf n k hk
  · intro ha k n hk
    exact encoderLayers_attn_getElem P config m b s p0 ha n k hk
  · intro x sh
    rfl

/-- Witness for C7: the collected hidden-state list entry 1 of a concrete
2-layer run is the threaded state after two layers. -/
theorem nezha_encoder_layer_threading_witness :
    ((encoderLayers demoPrims demoCfg (some [1]) 2 3 [9] 2).2.1)[1]?
      = some ((encoderLayers demoPrims demoCfg (some [1]) 2 3 [9] (1 + 1)).1) :=
  (nezha_encoder_layer_threading demoPrims demoCfg (some [1]) 2 3
    [9]).2.2.2.1 rfl 1 2 (by decide)

/-- C8: with `num_hidden_layers = 0` the encoder returns the post-adapter
embedding unchanged as its final hidden state (given that reshaping to a
matrix and back with the input shape is the identity, as it is for real
tensor reshapes). -/
theorem nezha_encoder_zero_layers_identity {T F : Type} (P : Prims T F)
    (config : NezhaConfig) (x : T) (m : Option T)
    (h0 : config.num_hidden_layers = 0)
    (hd : config.hidden_size % config.num_attention_heads = 0)
    (h3 : (P.shape x).length = 3)
    (hrt : P.reshapeFromMatrix (P.reshapeToMatrix
        (if (P.shape x).getD 2 0 ≠ config.hidden_size then
          P.denseLayer2d x config.hidden_size config.initializer_range
            none true ("embedding_hidden_mapping_in")
        else x)) (P.shape x)
      = (if (P.shape x).getD 2 0 ≠ config.hidden_size then
          P.denseLayer2d x config.hidden_size config.initializer_range
            none true ("embedding_hidden_mapping_in")
        else x)) :
    ∃ rest, NeZhaEncoder P config x m
      = .ok ((if (P.shape x).getD 2 0 ≠ config.hidden_size then
          P.denseLayer2d x config.hidden_size config.initializer_range
            none true ("embedding_hidden_mapping_in")
        else x), rest) := by
  rw [NeZhaEncoder_ok_eq P config x m hd h3]
  refine ⟨(NeZhaEncoderPostAdapter P config
      (if (P.shape x).getD 2 0 ≠ config.hidden_size then
        P.denseLayer2d x config.hidden_size config.initializer_range
          none true ("embedding_hidden_mapping_in")
      else x) (P.shape x) m).2, ?_⟩
  have hfst : (NeZhaEncoderPostAdapter P config
      (if (P.shape x).getD 2 0 ≠ config.hidden_size then
        P.denseLayer2d x config.hidden_size config.initializer_range
          none true ("embedding_hidden_mapping_in")
      else x) (P.shape x) m).1
      = (if (P.shape x).getD 2 0 ≠ config.hidden_size then
        P.denseLayer2d x config.hidden_size config.initializer_range
          none true ("embedding_hidden_mapping_in")
      else x) := by
    simp only [NeZhaEncoderPostAdapter, h0, encoderLayers_zero]
    exact hrt
  exact congrArg Except.ok (Prod.ext hfst rfl)

/-- Witness for C8 at a concrete width-7 input with hidden size 12 and zero
layers: the final hidden state is the adapter output itself. -/
theorem nezha_encoder_zero_layers_identity_witness :
    ∃ rest, NeZhaEncoder demoPrims demoCfgZero [2, 3, 7] none
      = .ok ((if (demoPrims.shape [2, 3, 7]).getD 2 0
            ≠ demoCfgZero.hidden_size then
          demoPrims.denseLayer2d [2, 3, 7] demoCfgZero.hidden_size
            demoCfgZero.initializer_range none true
            ("embedding_hidden_mapping_in")
        else [2, 3, 7]), rest) :=
  nezha_encoder_zero_layers_identity demoPrims demoCfgZero [2, 3, 7] none
    (by decide) (by decide) (by decide) (by decide)

/-- C9: when the hidden-states flag is set and there is at least one layer,
the last entry of the returned all-hidden-states list equals the returned
final hidden state. -/
theorem nezha_last_hidden_state_matches_final {T F : Type} (P : Prims T F)
    (config : NezhaConfig) (x : T) (m : Option T) (final : T)
    (outs : List (OutItem T))
    (hf : config.output_hidden_states = true)
    (hn : 1 ≤ config.num_hidden_layers)
    (h : NeZhaEncoder P config x m = .ok (final, outs)) :
    ∃ l, outs[1]? = some (OutItem.hiddenList l)
      ∧ l.getLast? = some final := by
  by_cases hd : config.hidden_size % config.num_attention_heads = 0
  case neg =>
    rw [NeZhaEncoder_error_of_not_dvd P config x m hd] at h
    cases h
  by_cases h3 : (P.shape x).length = 3
  case neg =>
    rw [NeZhaEncoder_rank_error P config x m hd h3] at h
    cases h
  rw [NeZhaEncoder_ok_eq P config x m hd h3] at h
  simp only [Except.ok.injEq, Prod.ext_iff] at h
  obtain ⟨h1, h2'⟩ := h
  subst h1
  subst h2'
  set x0 := (if (P.shape x).getD 2 0 ≠ config.hidden_size then
      P.denseLayer2d x config.hidden_size config.initializer_range
        none true ("embedding_hidden_mapping_in")
    else x) with hx0
  refine ⟨(encoderLayers P config m ((P.shape x).getD 0 0)
      ((P.shape x).getD 1 0) (P.reshapeToMatrix x0)
      config.num_hidden_layers).2.1.map
        (fun t => P.reshapeFromMatrix t (P.shape x)), ?_, ?_⟩
  · rw [NeZhaEncoderPostAdapter_snd]
    by_cases ha : config.output_attentions <;> simp [hf, ha]
  · rw [List.getLast?_map,
      encoderLayers_hidden_getLast P config m ((P.shape x).getD 0 0)
        ((P.shape x).getD 1 0) (P.reshapeToMatrix x0) hf
        config.num_hidden_layers hn]
    rfl

/-- Witness for C9 at the concrete 2-layer run of `demoPrims` / `demoCfg`. -/
theorem nezha_last_hidden_state_matches_final_witness :
    ∃ l, ([OutItem.hidden [2, 3, 12, 0, 1],
        OutItem.hiddenList [[2, 3, 12, 0], [2, 3, 12, 0, 1]],
        OutItem.attnList [[2, 3, 12], [2, 3, 12, 0]]] :
          List (OutItem (List Nat)))[1]?
        = some (OutItem.hiddenList l)
      ∧ l.getLast? = some [2, 3, 12, 0, 1] :=
  nezha_last_hidden_state_matches_final demoPrims demoCfg [2, 3, 12] none
    [2, 3, 12, 0, 1]
    [OutItem.hidden [2, 3, 12, 0, 1],
      OutItem.hiddenList [[2, 3, 12, 0], [2, 3, 12, 0, 1]],
      OutItem.attnList [[2, 3, 12], [2, 3, 12, 0]]]
    rfl (by decide) rfl

lemma btl_update_embOut {T F : Type} (P : Prims T F)
    (f : Nat → T → Nat → Nat → Option T → LayerArgs F → T × T)
    (config : NezhaConfig) (ids t : T) :
    nezhaEmbeddingOutput { P with bertTransformerLayer := f } config ids t
      = nezhaEmbeddingOutput P config ids t := rfl

lemma btl_update_rtti {T F : Type} (P : Prims T F)
    (f : Nat → T → Nat → Nat → Option T → LayerArgs F → T × T)
    (ids : T) (t : Option T) :
    resolvedTokenTypeIds { P with bertTransformerLayer := f } ids t
      = resolvedTokenTypeIds P ids t := rfl

lemma btl_update_rim {T F : Type} (P : Prims T F)
    (f : Nat → T → Nat → Nat → Option T → LayerArgs F → T × T)
    (ids : T) (im : Option T) :
    resolvedInputMask { P with bertTransformerLayer := f } ids im
      = resolvedInputMask P ids im := rfl

lemma btl_update_cam {T F : Type} (P : Prims T F)
    (f : Nat → T → Nat → Nat → Option T → LayerArgs F → T × T) :
    ({ P with bertTransformerLayer := f } : Prims T F).createAttentionMaskFromInputMask
      = P.createAttentionMaskFromInputMask := rfl

lemma btl_update_pooler {T F : Type} (P : Prims T F)
    (f : Nat → T → Nat → Nat → Option T → LayerArgs F → T × T) :
    ({ P with bertTransformerLayer := f } : Prims T F).poolerLayer
      = P.poolerLayer := rfl

lemma cam_update_embOut {T F : Type} (P : Prims T F) (c : T → T → T)
    (config : NezhaConfig) (ids t : T) :
    nezhaEmbeddingOutput
        { P with createAttentionMaskFromInputMask := c } config ids t
      = nezhaEmbeddingOutput P config ids t := rfl

lemma cam_update_rtti {T F : Type} (P : Prims T F) (c : T → T → T)
    (ids : T) (t : Option T) :
    resolvedTokenTypeIds { P with createAttentionMaskFromInputMask := c } ids t
      = resolvedTokenTypeIds P ids t := rfl

lemma cam_update_rim {T F : Type} (P : Prims T F) (c : T → T → T)
    (ids : T) (im : Option T) :
    resolvedInputMask { P with createAttentionMaskFromInputMask := c } ids im
      = resolvedInputMask P ids im := rfl

lemma cam_update_cam {T F : Type} (P : Prims T F) (c : T → T → T) :
    ({ P with createAttentionMaskFromInputMask := c }
        : Prims T F).createAttentionMaskFromInputMask = c := rfl

lemma cam_update_pooler {T F : Type} (P : Prims T F) (c : T → T → T) :
    ({ P with createAttentionMaskFromInputMask := c } : Prims T F).poolerLayer
      = P.poolerLayer := rfl

/-- C10: the pairwise attention mask is built once, from `input_ids` and the
(resolved) `input_mask`, and the identical mask is what every transformer
layer receives: (i) the model's result depends on the layer primitive only
through its behaviour at that single mask value, and (ii) the model's result
depends on the mask-builder primitive only through its single value at
`(input_ids, resolved input_mask)`. -/
theorem nezha_attention_mask_single_and_uniform {T F : Type} (P : Prims T F)
    (config : NezhaConfig) (input_ids : T)
    (input_mask token_type_ids : Option T) :
    (∀ f g,
       (∀ i t b s a,
          f i t b s (some (P.createAttentionMaskFromInputMask input_ids
              (resolvedInputMask P input_ids input_mask))) a
            = g i t b s (some (P.createAttentionMaskFromInputMask input_ids
              (resolvedInputMask P input_ids input_mask))) a) →
       NeZhaModel { P with bertTransformerLayer := f } config input_ids
           input_mask token_type_ids
         = NeZhaModel { P with bertTransformerLayer := g } config input_ids
             input_mask token_type_ids)
    ∧ (∀ c c',
       c input_ids (resolvedInputMask P input_ids input_mask)
           = c' input_ids (resolvedInputMask P input_ids input_mask) →
       NeZhaModel { P with createAttentionMaskFromInputMask := c } config
           input_ids input_mask token_type_ids
         = NeZhaModel { P with createAttentionMaskFromInputMask := c' } config
             input_ids input_mask token_type_ids) := by
  constructor
  · intro f g hfg
    by_cases h2 : (P.shape input_ids).length = 2
    case neg =>
      rw [NeZhaModel_rank2_error { P with bertTransformerLayer := f } config
          input_ids input_mask token_type_ids h2,
        NeZhaModel_rank2_error { P with bertTransformerLayer := g } config
          input_ids input_mask token_type_ids h2]
    by_cases h3 : (P.shape (P.wordEmbeddingsLayer input_ids config.vocab_size
        config.hidden_size config.initializer_range ("word_embeddings")
        config.use_one_hot_embeddings).1).length = 3
    case neg =>
      rw [NeZhaModel_rank3_error { P with bertTransformerLayer := f } config
          input_ids input_mask token_type_ids h2 h3,
        NeZhaModel_rank3_error { P with bertTransformerLayer := g } config
          input_ids input_mask token_type_ids h2 h3]
    rw [NeZhaModel_eq { P with bertTransformerLayer := f } config input_ids
        input_mask token_type_ids h2 h3,
      NeZhaModel_eq { P with bertTransformerLayer := g } config input_ids
        input_mask token_type_ids h2 h3]
    simp only [btl_update_embOut, btl_update_rtti, btl_update_rim,
      btl_update_cam, btl_update_pooler]
    rw [NeZhaEncoder_mask_congr P config
      (nezhaEmbeddingOutput P config input_ids
        (resolvedTokenTypeIds P input_ids token_type_ids))
      (some (P.createAttentionMaskFromInputMask input_ids
        (resolvedInputMask P input_ids input_mask))) f g hfg]
  · intro c c' hcc
    by_cases h2 : (P.shape input_ids).length = 2
    case neg =>
      rw [NeZhaModel_rank2_error
          { P with createAttentionMaskFromInputMask := c } config
          input_ids input_mask token_type_ids h2,
        NeZhaModel_rank2_error
          { P with createAttentionMaskFromInputMask := c' } config
          input_ids input_mask token_type_ids h2]
    by_cases h3 : (P.shape (P.wordEmbeddingsLayer input_ids config.vocab_size
        config.hidden_size config.initializer_range ("word_embeddings")
        config.use_one_hot_embeddings).1).length = 3
    case neg =>
      rw [NeZhaModel_rank3_error
          { P with createAttentionMaskFromInputMask := c } config
          input_ids input_mask token_type_ids h2 h3,
        NeZhaModel_rank3_error
          { P with createAttentionMaskFromInputMask := c' } config
          input_ids input_mask token_type_ids h2 h3]
    rw [NeZhaModel_eq { P with createAttentionMaskFromInputMask := c } config
        input_ids input_mask token_type_ids h2 h3,
      NeZhaModel_eq { P with createAttentionMaskFromInputMask := c' } config
        input_ids input_mask token_type_ids h2 h3]
    simp only [cam_update_embOut, cam_update_rtti, cam_update_rim,
      cam_update_cam, cam_update_pooler]
    rw [hcc]
    rfl

/-- Witness for C10: two concrete layer primitives that agree at the built
mask are interchangeable in a concrete model run. -/
theorem nezha_attention_mask_single_and_uniform_witness :
    NeZhaModel { demoPrims with bertTransformerLayer := demoLayerA } demoCfg
        demoIds none none
      = NeZhaModel { demoPrims with bertTransformerLayer := demoLayerB }
          demoCfg demoIds none none :=
  (nezha_attention_mask_single_and_uniform demoPrims demoCfg demoIds
      none none).1 demoLayerA demoLayerB
    (fun i t b s a => by simp [demoLayerA, demoLayerB, demoMask0])
